import Mathlib

/-
Verification development for the shroom room/avatar rendering core.

Shallow embedding of three source files:
  - src/objects/RoomObject.ts        (attach/detach lifecycle base class)
  - src/objects/room/Room.ts         (scene composition engine and projection)
  - src/objects/avatar BaseAvatar    (look resolution and animation state machine)

TypeScript numbers are modelled as Int (all arithmetic in the embedded code is
exact integer arithmetic: additions, multiplications by 32 and division 32/2).
Throwing methods are modelled as returning a state together with an optional
error message; mutation is modelled as functional record update.  External
collaborators (PIXI containers, RoomVisualization cache, HitDetection) carry no
state relevant to the verified claims; their calls are effect-free here.
-/

/- ===================== RoomObject lifecycle (RoomObject.ts) ===================== -/

/-- State of one RoomObject: the stored room context (modelled by an id),
the destroyed flag, and counters observing hook invocations and container
removals.  `registeredCount` counts `registered()` calls, `destroyedCount`
counts `destroyed()` calls, `removedCount` counts
`roomObjectContainer.removeRoomObject(this)` calls. -/
structure RoomObjectState where
  context : Option Nat
  isDestroyed : Bool
  registeredCount : Nat
  destroyedCount : Nat
  removedCount : Nat
deriving DecidableEq, Repr

/-- Result of a RoomObject method call: the state after the call together with
the thrown error message, if any (TypeScript `throw` aborts the method but the
mutations already performed remain visible). -/
structure RoomObjectStep where
  state : RoomObjectState
  error : Option String
deriving DecidableEq, Repr

/-- A freshly constructed RoomObject: no context, not destroyed, no hook calls. -/
def RoomObject.initial : RoomObjectState :=
  { context := Option.none, isDestroyed := false,
    registeredCount := 0, destroyedCount := 0, removedCount := 0 }

/-- Model of `RoomObject.setParent(room)`: throws "RoomObject already provided with a
context." when a context is present; otherwise clears the destroyed flag,
stores the context and invokes `registered()`. -/
def RoomObject.setParent (s : RoomObjectState) (room : Nat) : RoomObjectStep :=
  if s.context.isSome then
    { state := s, error := some "RoomObject already provided with a context." }
  else
    { state := { s with isDestroyed := false, context := some room,
                        registeredCount := s.registeredCount + 1 },
      error := none }

/-- Model of `RoomObject.destroy()`: returns immediately when already destroyed;
otherwise sets the destroyed flag, removes itself from the room object
container (the `roomObjectContainer` getter throws "Invalid context" when no
context is stored), clears the context and invokes `destroyed()`. -/
def RoomObject.destroy (s : RoomObjectState) : RoomObjectStep :=
  if s.isDestroyed then { state := s, error := none }
  else
    let s1 := { s with isDestroyed := true }
    match s1.context with
    | Option.none => { state := s1, error := some "Invalid context" }
    | Option.some _ =>
      let s2 := { s1 with removedCount := s1.removedCount + 1 }
      let s3 := { s2 with context := Option.none }
      { state := { s3 with destroyedCount := s3.destroyedCount + 1 }, error := none }

/- ===================== Room (Room.ts) ===================== -/

/-- Wall corner classification produced by tile-map parsing. -/
inductive WallKind
  | rowWall
  | colWall
  | outerCorner
  | innerCorner
deriving DecidableEq, Repr

/-- One parsed tile-map cell, as consumed by `Room.updateTiles`:
door and floor tiles carry an elevation `z`, walls carry their kind, a height
and a hideBorder flag, stairs carry elevation and a direction kind. -/
inductive ParsedTileType
  | tile (z : Int)
  | door (z : Int)
  | wall (kind : WallKind) (height : Int) (hideBorder : Bool)
  | stairs (z : Int) (kind : Nat)
  | hidden
deriving DecidableEq, Repr

/-- Facing direction of a wall object. -/
inductive WallDirection
  | left
  | right
  | corner
deriving DecidableEq, Repr

/-- The rendering direction implied by a parsed wall cell
(`getWallDirection` in Room.ts): rowWall faces left, colWall right,
outerCorner corner; innerCorner yields no direction. -/
def getWallDirection (tile : ParsedTileType) : Option WallDirection :=
  match tile with
  | ParsedTileType.wall kind _ _ =>
    match kind with
    | WallKind.rowWall => some WallDirection.left
    | WallKind.colWall => some WallDirection.right
    | WallKind.outerCorner => some WallDirection.corner
    | WallKind.innerCorner => none
  | _ => none

/-- A Wall render object, with the constructor arguments of `new Wall(...)`
plus an identity tag `id` distinguishing distinct created objects.  `color`
is optional because `updateTextures` may assign the undefined room wall
color. -/
structure WallObj where
  id : Nat
  roomX : Int
  roomY : Int
  roomZ : Int
  direction : WallDirection
  tileHeight : Int
  wallHeight : Int
  color : Option String
  texture : Option Nat
  wallDepth : Int
  hideBorder : Bool
  doorHeight : Option Int
  side : Bool
deriving DecidableEq, Repr

/-- Discriminates the two floor object classes. -/
inductive FloorKind
  | tile
  | stair
deriving DecidableEq, Repr

/-- A floor render object (`Tile` or `Stair`) with its constructor arguments
and an identity tag. -/
structure FloorObj where
  id : Nat
  kind : FloorKind
  roomX : Int
  roomY : Int
  roomZ : Int
  edge : Bool
  tileHeight : Int
  color : Option String
  texture : Option Nat
  door : Bool
  stairDirection : Option Nat
deriving DecidableEq, Repr

/-- A TileCursor render object. -/
structure CursorObj where
  id : Nat
  roomX : Int
  roomY : Int
  roomZ : Int
  door : Bool
deriving DecidableEq, Repr

/-- Tile-map bounds computed once at construction by `getTileMapBounds`. -/
structure Bounds where
  minX : Int
  minY : Int
  maxX : Int
  maxY : Int
deriving DecidableEq, Repr

/-- Placement kind selecting the offset pair used by `Room.getPosition`. -/
inductive PositionKind
  | plane
  | object
  | none
deriving DecidableEq, Repr

/-- The Room state: parse-time data (offsets, bounds, parsed grid, largest
height difference), current style parameters, the active render object lists,
the current door wall id, a fresh-object counter, and `parseCount` counting
invocations of tile-map parsing (parsing happens once, in the constructor). -/
structure RoomState where
  wallOffsets : Int × Int
  positionOffsets : Int × Int
  maskOffsets : Int × Int
  tileMapBounds : Bounds
  parsedTileMap : List (List ParsedTileType)
  largestDiff : Int
  hideWalls : Bool
  hideFloor : Bool
  wallDepth : Int
  wallHeight : Int
  tileHeight : Int
  tileColor : String
  wallColor : Option String
  floorColor : Option String
  wallTexture : Option Nat
  floorTexture : Option Nat
  currentWallTexture : Option Nat
  currentFloorTexture : Option Nat
  walls : List WallObj
  floor : List FloorObj
  cursors : List CursorObj
  doorWall : Option Nat
  nextId : Nat
  parseCount : Nat
deriving DecidableEq, Repr

/-- Allocates an identity tag for a newly created render object. -/
def RoomState.fresh (r : RoomState) : Nat × RoomState :=
  (r.nextId, { r with nextId := r.nextId + 1 })

/-- Model of `Room.wallHeightWithZ`: the wall height compensated by the largest
elevation difference of the tile map. -/
def Room.wallHeightWithZ (r : RoomState) : Int :=
  r.wallHeight + r.largestDiff * 32

/-- Model of `Room.registerWall`: skipped entirely when `hideWalls || hideFloor`;
otherwise appends the wall to the active wall list and adds it to the room. -/
def Room.registerWall (r : RoomState) (w : WallObj) : RoomState :=
  if r.hideWalls || r.hideFloor then r
  else { r with walls := r.walls ++ [w] }

/-- Model of `Room.registerTile`: skipped when `hideFloor`; otherwise appends the floor
object to the active floor list and adds it to the room. -/
def Room.registerTile (r : RoomState) (t : FloorObj) : RoomState :=
  if r.hideFloor then r
  else { r with floor := r.floor ++ [t] }

/-- Model of `Room.registerTileCursor`: creates a TileCursor and registers it
unconditionally. -/
def Room.registerTileCursor (r : RoomState) (roomX roomY roomZ : Int) (door : Bool) :
    RoomState :=
  let (i, r1) := r.fresh
  { r1 with cursors := r1.cursors ++
      [{ id := i, roomX := roomX, roomY := roomY, roomZ := roomZ, door := door }] }

/-- Model of `Room.resetTiles`: destroys every active floor, wall and cursor object and
empties the lists; the door wall reference is cleared. -/
def Room.resetTiles (r : RoomState) : RoomState :=
  { r with floor := [], walls := [], cursors := [], doorWall := Option.none }

/-- Processing of one grid cell inside the `Room.updateTiles` double loop,
with `x`, `y` the raw grid indices.  Door cells emit a door-flagged edge tile,
a left wall with door cutout (always recorded as the door wall, registered
only when walls are shown), and a door cursor; plain tiles emit an edge tile
and a cursor; wall cells emit a wall facing their implied direction, and
inner corners additionally a right+left pair of side-less walls; stairs emit
a stair object and two cursors (base elevation and elevation + 1). -/
def Room.processCell (r0 : RoomState) (x y : Nat) (t : ParsedTileType) : RoomState :=
  let roomX : Int := (x : Int) - r0.wallOffsets.1
  let roomY : Int := (y : Int) - r0.wallOffsets.2
  match t with
  | ParsedTileType.door z =>
    let (i1, r1) := r0.fresh
    let r2 := Room.registerTile r1
      { id := i1, kind := FloorKind.tile, roomX := roomX, roomY := roomY, roomZ := z,
        edge := true, tileHeight := r1.tileHeight,
        color := some (r1.floorColor.getD r1.tileColor), texture := Option.none,
        door := true, stairDirection := Option.none }
    let (i2, r3) := r2.fresh
    let r4 := Room.registerWall r3
      { id := i2, roomX := roomX, roomY := roomY, roomZ := z,
        direction := WallDirection.left, tileHeight := r3.tileHeight,
        wallHeight := Room.wallHeightWithZ r3,
        color := some (r3.wallColor.getD "#ffffff"), texture := r3.currentWallTexture,
        wallDepth := r3.wallDepth, hideBorder := true, doorHeight := some 30,
        side := true }
    let r5 := { r4 with doorWall := some i2 }
    Room.registerTileCursor r5 roomX roomY z true
  | ParsedTileType.tile z =>
    let (i1, r1) := r0.fresh
    let r2 := Room.registerTile r1
      { id := i1, kind := FloorKind.tile, roomX := roomX, roomY := roomY, roomZ := z,
        edge := true, tileHeight := r1.tileHeight,
        color := some (r1.floorColor.getD r1.tileColor), texture := Option.none,
        door := false, stairDirection := Option.none }
    Room.registerTileCursor r2 roomX roomY z false
  | ParsedTileType.wall kind height hideBorder =>
    let r2 :=
      match getWallDirection (ParsedTileType.wall kind height hideBorder) with
      | Option.some dir =>
        let (i1, r1) := r0.fresh
        Room.registerWall r1
          { id := i1, roomX := roomX, roomY := roomY, roomZ := height,
            direction := dir, tileHeight := r1.tileHeight,
            wallHeight := Room.wallHeightWithZ r1,
            color := some (r1.wallColor.getD "#ffffff"),
            texture := r1.currentWallTexture, wallDepth := r1.wallDepth,
            hideBorder := hideBorder, doorHeight := Option.none, side := true }
      | Option.none => r0
    if kind = WallKind.innerCorner then
      let (i2, r3) := r2.fresh
      let r4 := Room.registerWall r3
        { id := i2, roomX := roomX, roomY := roomY, roomZ := height,
          direction := WallDirection.right, tileHeight := r3.tileHeight,
          wallHeight := Room.wallHeightWithZ r3, color := some "#ffffff",
          texture := Option.none, wallDepth := r3.wallDepth, hideBorder := false,
          doorHeight := Option.none, side := false }
      let (i3, r5) := r4.fresh
      Room.registerWall r5
        { id := i3, roomX := roomX, roomY := roomY, roomZ := height,
          direction := WallDirection.left, tileHeight := r5.tileHeight,
          wallHeight := Room.wallHeightWithZ r5, color := some "#ffffff",
          texture := Option.none, wallDepth := r5.wallDepth, hideBorder := false,
          doorHeight := Option.none, side := false }
    else r2
  | ParsedTileType.stairs z kind =>
    let (i1, r1) := r0.fresh
    let r2 := Room.registerTile r1
      { id := i1, kind := FloorKind.stair, roomX := roomX, roomY := roomY, roomZ := z,
        edge := false, tileHeight := r1.tileHeight, color := some r1.tileColor,
        texture := Option.none, door := false, stairDirection := some kind }
    let r3 := Room.registerTileCursor r2 roomX roomY z false
    Room.registerTileCursor r3 roomX roomY (z + 1) false
  | ParsedTileType.hidden => r0

/-- Model of `Room.updateTiles`: the full rebuild — tear down all prior objects via
`resetTiles`, then walk the parsed grid row by row, cell by cell. -/
def Room.updateTiles (r : RoomState) : RoomState :=
  let r1 := Room.resetTiles r
  r1.parsedTileMap.enum.foldl
    (fun acc row =>
      row.2.enum.foldl
        (fun acc2 cell => Room.processCell acc2 cell.1 row.1 cell.2) acc)
    r1

/-- Model of `Room._updateWallHeight`, triggered by the `wallHeight` setter: walks the
existing wall objects and sets their height to `wallHeightWithZ` in place
(bracketed by cache suspend/resume, which carries no room state). -/
def Room.setWallHeight (r : RoomState) (value : Int) : RoomState :=
  let r1 := { r with wallHeight := value }
  let newWalls := r1.walls.map (fun (w : WallObj) => { w with wallHeight := Room.wallHeightWithZ r1 })
  { r1 with walls := newWalls }

/-- Model of `Room._updateTileHeight`, triggered by the `tileHeight` setter: walks the
floor and wall objects and sets the tile height in place. -/
def Room.setTileHeight (r : RoomState) (value : Int) : RoomState :=
  let r1 := { r with tileHeight := value }
  let newFloor := r1.floor.map (fun (f : FloorObj) => { f with tileHeight := r1.tileHeight })
  let r2 := { r1 with floor := newFloor }
  let newWalls := r2.walls.map (fun (w : WallObj) => { w with tileHeight := r2.tileHeight })
  { r2 with walls := newWalls }

/-- Model of `Room._updateWallDepth`, triggered by the `wallDepth` setter. -/
def Room.setWallDepth (r : RoomState) (value : Int) : RoomState :=
  let r1 := { r with wallDepth := value }
  let newWalls := r1.walls.map (fun (w : WallObj) => { w with wallDepth := r1.wallDepth })
  { r1 with walls := newWalls }

/-- Model of `Room.updateTextures`: walks the wall and floor objects and assigns the
current textures and colors in place. -/
def Room.updateTextures (r : RoomState) : RoomState :=
  let newWalls := r.walls.map (fun (w : WallObj) => { w with texture := r.currentWallTexture, color := r.wallColor })
  let r1 := { r with walls := newWalls }
  let newFloor := r1.floor.map (fun (f : FloorObj) => { f with texture := r1.currentFloorTexture, color := r1.floorColor })
  { r1 with floor := newFloor }

/-- The `wallColor` setter: store and re-propagate textures/colors. -/
def Room.setWallColor (r : RoomState) (value : Option String) : RoomState :=
  Room.updateTextures { r with wallColor := value }

/-- The `floorColor` setter: store and re-propagate textures/colors. -/
def Room.setFloorColor (r : RoomState) (value : Option String) : RoomState :=
  Room.updateTextures { r with floorColor := value }

/-- The `wallTexture` setter: stores the texture; `loadWallTextures` resolves
it into `currentWallTexture` and re-propagates (the promise resolution is
modelled as completing synchronously). -/
def Room.setWallTexture (r : RoomState) (value : Option Nat) : RoomState :=
  Room.updateTextures { r with wallTexture := value, currentWallTexture := value }

/-- The `floorTexture` setter, analogous to `setWallTexture`. -/
def Room.setFloorTexture (r : RoomState) (value : Option Nat) : RoomState :=
  Room.updateTextures { r with floorTexture := value, currentFloorTexture := value }

/-- The `hideWalls` setter: store the flag and run the full rebuild. -/
def Room.setHideWalls (r : RoomState) (value : Bool) : RoomState :=
  Room.updateTiles { r with hideWalls := value }

/-- The `hideFloor` setter: store the flag and run the full rebuild. -/
def Room.setHideFloor (r : RoomState) (value : Bool) : RoomState :=
  Room.updateTiles { r with hideFloor := value }

/-- Model of `Room.getPosition(roomX, roomY, roomZ, type)`: adds the offset pair
selected by `type` to the coordinates, then projects isometrically against
the parse-time tile-map bounds with `base = 32`. -/
def Room.getPosition (r : RoomState) (roomX roomY roomZ : Int)
    (type : PositionKind) : Int × Int :=
  let base : Int := 32
  let p :=
    match type with
    | PositionKind.plane => (roomX + r.wallOffsets.1, roomY + r.wallOffsets.2)
    | PositionKind.object => (roomX + r.positionOffsets.1, roomY + r.positionOffsets.2)
    | PositionKind.none => (roomX, roomY)
  let xPos := -r.tileMapBounds.minX + p.1 * base - p.2 * base
  let yPos := -r.tileMapBounds.minY + p.1 * (base / 2) + p.2 * (base / 2)
  (xPos, yPos - roomZ * 32)

/-- Reference definition transcribing the projection exactly as the claim
states it: offset selection by placement kind (wallOffsets for plane,
positionOffsets for object, none for none), then
screenX = -bounds.minX + x*base - y*base and
screenY = -bounds.minY + x*(base/2) + y*(base/2) - roomZ*32 with base = 32.
Written from the words of the claim, to be compared against `Room.getPosition`. -/
def Room.getPositionSpec (r : RoomState) (roomX roomY roomZ : Int)
    (type : PositionKind) : Int × Int :=
  let base : Int := 32
  let x :=
    match type with
    | PositionKind.plane => roomX + r.wallOffsets.1
    | PositionKind.object => roomX + r.positionOffsets.1
    | PositionKind.none => roomX
  let y :=
    match type with
    | PositionKind.plane => roomY + r.wallOffsets.2
    | PositionKind.object => roomY + r.positionOffsets.2
    | PositionKind.none => roomY
  (-r.tileMapBounds.minX + x * base - y * base,
   -r.tileMapBounds.minY + x * (base / 2) + y * (base / 2) - roomZ * 32)

/-- One style-parameter mutation on a Room, covering every style setter. -/
inductive StyleMutation
  | wallHeight (v : Int)
  | tileHeight (v : Int)
  | wallDepth (v : Int)
  | wallColor (v : Option String)
  | floorColor (v : Option String)
  | wallTexture (v : Option Nat)
  | floorTexture (v : Option Nat)
  | hideWalls (v : Bool)
  | hideFloor (v : Bool)
deriving DecidableEq, Repr

/-- Dispatch of a style mutation to the corresponding Room setter. -/
def Room.applyStyle (r : RoomState) (m : StyleMutation) : RoomState :=
  match m with
  | StyleMutation.wallHeight v => Room.setWallHeight r v
  | StyleMutation.tileHeight v => Room.setTileHeight r v
  | StyleMutation.wallDepth v => Room.setWallDepth r v
  | StyleMutation.wallColor v => Room.setWallColor r v
  | StyleMutation.floorColor v => Room.setFloorColor r v
  | StyleMutation.wallTexture v => Room.setWallTexture r v
  | StyleMutation.floorTexture v => Room.setFloorTexture r v
  | StyleMutation.hideWalls v => Room.setHideWalls r v
  | StyleMutation.hideFloor v => Room.setHideFloor r v

/-- Parse output consumed by the Room constructor.  Modelled from the spec:
`parseTileMap` and `parseTileMapString` live in src/util, outside the included
sources; only their structured output {tilemap, offsets, largestDiff} is used
by Room.ts. -/
structure ParseResult where
  tilemap : List (List ParsedTileType)
  wallOffsets : Int × Int
  positionOffsets : Int × Int
  maskOffsets : Int × Int
  largestDiff : Int
deriving DecidableEq, Repr

/-- The Room constructor: stores the parse output (counting one parse
invocation), computes the tile-map bounds once (`getTileMapBounds` is an
external utility whose output is taken as an input here), installs the default
style parameters, and performs the initial full build. -/
def Room.construct (p : ParseResult) (bounds : Bounds) : RoomState :=
  Room.updateTiles
    { wallOffsets := p.wallOffsets, positionOffsets := p.positionOffsets,
      maskOffsets := p.maskOffsets, tileMapBounds := bounds,
      parsedTileMap := p.tilemap, largestDiff := p.largestDiff,
      hideWalls := false, hideFloor := false,
      wallDepth := 8, wallHeight := 115, tileHeight := 8,
      tileColor := "#989865", wallColor := Option.none, floorColor := Option.none,
      wallTexture := Option.none, floorTexture := Option.none,
      currentWallTexture := Option.none, currentFloorTexture := Option.none,
      walls := [], floor := [], cursors := [], doorWall := Option.none,
      nextId := 0, parseCount := 1 }

/- ===================== BaseAvatar (avatar look engine) ===================== -/

/-- One per-frame avatar asset: the texture file id, local offset and mirror
flag. -/
structure AvatarAsset where
  fileId : String
  x : Int
  y : Int
  mirror : Bool
deriving DecidableEq, Repr

/-- Render mode of a draw part. -/
inductive DrawMode
  | colored
  | plain
deriving DecidableEq, Repr

/-- One draw part of a resolved avatar draw definition: its cyclic per-frame
asset list, declared color and render mode. -/
structure AvatarDrawPart where
  assets : List AvatarAsset
  color : Option String
  mode : DrawMode
deriving DecidableEq, Repr

/-- The asset a DrawPart displays at a given frame, as computed inside
`BaseAvatar._updateSpritesWithAvatarDrawDefinition`:
`const frame = currentFrame % part.assets.length; const asset = part.assets[frame]`. -/
def BaseAvatar.selectedAsset (part : AvatarDrawPart) (currentFrame : Nat) :
    Option AvatarAsset :=
  part.assets.get? (currentFrame % part.assets.length)

/-- A declarative avatar look: look identifier, action set, item, effect and
facing direction.  Modelled from the spec: the `LookOptions` type is declared
in src/objects/avatar/util/createLookServer, outside the included sources;
per the spec a LookDescription is {look identifier, action set (unordered),
item, effect, direction}. -/
structure LookOptions where
  look : String
  actions : List String
  item : Option String
  effect : Option String
  direction : Nat
deriving DecidableEq, Repr

/-- Modelled from the spec: the helper `isSetEqual` (src/util/isSetEqual) is
imported by BaseAvatar but its source is not included; per the spec, action
sets are compared by set-equality with element order irrelevant — two sets are
equal when each contains every element of the other. -/
def isSetEqual (a b : List String) : Bool :=
  a.all (fun x => b.contains x) && b.all (fun x => a.contains x)

/-- The BaseAvatar state: mount flag (dependencies set), the applied and
pending look options, the two dirty flags, the current frame, the monotonic
request id `updateId`, and the render state — the stored loader result
(modelled by an id), the stored draw definition (the loader result applied to
the accepted look), and the rebuilt sprite graph (result, look and frame it
was built from).  `requestLog` records every issued resolution request as
(request id, requested look). -/
structure AvatarState where
  mounted : Bool
  lookOptions : Option LookOptions
  nextLookOptions : Option LookOptions
  refreshLook : Bool
  refreshFrame : Bool
  currentFrame : Nat
  updateId : Nat
  avatarLoaderResult : Option Nat
  avatarDrawDefinition : Option (Nat × LookOptions)
  spriteGraph : Option (Nat × LookOptions × Nat)
  requestLog : List (Nat × LookOptions)
deriving DecidableEq, Repr

/-- The BaseAvatar constructor: stores the initial look as the pending look;
nothing is resolved yet and the avatar is unmounted until its dependencies are
set. -/
def BaseAvatar.mkAvatar (look : LookOptions) : AvatarState :=
  { mounted := false, lookOptions := Option.none, nextLookOptions := some look,
    refreshLook := false, refreshFrame := false, currentFrame := 0, updateId := 0,
    avatarLoaderResult := Option.none, avatarDrawDefinition := Option.none,
    spriteGraph := Option.none, requestLog := [] }

/-- Model of `BaseAvatar._updateLookOptions(oldLookOptions, newLookOptions)`: the new
look becomes pending and the look-dirty flag is set iff there is no old look,
or the action sets are not set-equal, or look id, item, effect or direction
differ. -/
def BaseAvatar.updateLookOptions (s : AvatarState)
    (oldLookOptions : Option LookOptions) (newLookOptions : LookOptions) :
    AvatarState :=
  let trigger :=
    match oldLookOptions with
    | Option.none => true
    | Option.some old =>
      !(isSetEqual old.actions newLookOptions.actions) ||
      old.look != newLookOptions.look ||
      old.item != newLookOptions.item ||
      old.effect != newLookOptions.effect ||
      old.direction != newLookOptions.direction
  if trigger then
    { s with nextLookOptions := some newLookOptions, refreshLook := true }
  else s

/-- The public `lookOptions` setter:
`this._updateLookOptions(this._lookOptions, lookOptions)`. -/
def BaseAvatar.setLookOptions (s : AvatarState) (lookOptions : LookOptions) :
    AvatarState :=
  BaseAvatar.updateLookOptions s s.lookOptions lookOptions

/-- The `currentFrame` setter: no-op when the value is unchanged, otherwise
store it and set the frame-dirty flag. -/
def BaseAvatar.setCurrentFrame (s : AvatarState) (value : Nat) : AvatarState :=
  if value = s.currentFrame then s
  else { s with currentFrame := value, refreshFrame := true }

/-- Model of `BaseAvatar._updateSpritesWithAvatarDrawDefinition(definition, frame)`:
returns early when unmounted; otherwise rebuilds the sprite graph (a fresh
child container populated per draw part) from the definition at the given
frame. -/
def BaseAvatar.updateSpritesWithDefinition (s : AvatarState)
    (definition : Nat × LookOptions) (currentFrame : Nat) : AvatarState :=
  if s.mounted then
    { s with spriteGraph := some (definition.1, definition.2, currentFrame) }
  else s

/-- Model of `BaseAvatar._updateSprites`: returns early when no loader result or no
applied look is present; otherwise derives the draw definition from the loader
result and the applied look, stores it, and rebuilds the sprite graph at the
current frame. -/
def BaseAvatar.updateSprites (s : AvatarState) : AvatarState :=
  match s.avatarLoaderResult, s.lookOptions with
  | Option.some result, Option.some look =>
    let definition := (result, look)
    let s1 := { s with avatarDrawDefinition := some definition }
    BaseAvatar.updateSpritesWithDefinition s1 definition s1.currentFrame
  | _, _ => s

/-- Model of `BaseAvatar._reloadLook`: returns early when unmounted; when a pending
look exists, increments the monotonic update id and issues an asynchronous
resolution request tagged with the new id (recorded in `requestLog`).  The
pending look is not cleared here — only an accepted response clears it. -/
def BaseAvatar.reloadLook (s : AvatarState) : AvatarState :=
  if s.mounted then
    match s.nextLookOptions with
    | Option.some lookOptions =>
      { s with updateId := s.updateId + 1,
               requestLog := s.requestLog ++ [(s.updateId + 1, lookOptions)] }
    | Option.none => s
  else s

/-- Completion of one resolution request: the response carries the request id
and the look captured at request time, plus the loader result.  A response
whose id differs from the current `updateId` returns immediately (stale,
silently discarded); the matching response stores the loader result, promotes
the captured look to the applied look, clears the pending look, and rebuilds
the sprites. -/
def BaseAvatar.handleResponse (s : AvatarState) (requestId : Nat)
    (lookOptions : LookOptions) (result : Nat) : AvatarState :=
  if requestId ≠ s.updateId then s
  else
    let s1 := { s with avatarLoaderResult := some result,
                       lookOptions := some lookOptions,
                       nextLookOptions := Option.none }
    BaseAvatar.updateSprites s1

/-- Model of `BaseAvatar._updateFrame`: returns early when no draw definition is
stored; otherwise rebuilds the sprite graph from the stored definition at the
current frame (no look re-resolution). -/
def BaseAvatar.updateFrame (s : AvatarState) : AvatarState :=
  match s.avatarDrawDefinition with
  | Option.none => s
  | Option.some definition =>
     BaseAvatar.updateSpritesWithDefinition s definition s.currentFrame

/-- The animation-ticker callback subscribed in
`BaseAvatar._handleDependenciesSet`: consume the look-dirty flag by reloading
the look, then consume the frame-dirty flag by rebuilding the frame. -/
def BaseAvatar.tick (s : AvatarState) : AvatarState :=
  let s1 := if s.refreshLook then BaseAvatar.reloadLook { s with refreshLook := false }
            else s
  if s1.refreshFrame then BaseAvatar.updateFrame { s1 with refreshFrame := false }
  else s1

/-- The `dependencies` setter / `_handleDependenciesSet`: mounts the avatar,
immediately reloads the look, and subscribes the ticker callback (`tick`). -/
def BaseAvatar.setDependencies (s : AvatarState) : AvatarState :=
  BaseAvatar.reloadLook { s with mounted := true }

/- ===================== Witness fixtures ===================== -/

/-- A concrete steady avatar state with an applied look and no pending work,
as reached after one accepted resolution. -/
def BaseAvatar.steadyAvatar (old : LookOptions) : AvatarState :=
  { mounted := true, lookOptions := some old, nextLookOptions := Option.none,
    refreshLook := false, refreshFrame := false, currentFrame := 0, updateId := 1,
    avatarLoaderResult := some 0, avatarDrawDefinition := some (0, old),
    spriteGraph := some (0, old, 0), requestLog := [(1, old)] }

/-- A concrete look used by witnesses. -/
def lookA : LookOptions :=
  { look := "hd-180-1", actions := ["wlk", "wav"], item := Option.none,
    effect := Option.none, direction := 2 }

/-- The same look as `lookA` with the action set in the opposite order. -/
def lookAshuffled : LookOptions :=
  { look := "hd-180-1", actions := ["wav", "wlk"], item := Option.none,
    effect := Option.none, direction := 2 }

/-- A look differing from `lookA` in direction only. -/
def lookB : LookOptions :=
  { look := "hd-180-1", actions := ["wlk", "wav"], item := Option.none,
    effect := Option.none, direction := 4 }

/-- A concrete wall object used as a witness input. -/
def sampleWall : WallObj :=
  { id := 99, roomX := 0, roomY := 0, roomZ := 0, direction := WallDirection.left,
    tileHeight := 8, wallHeight := 115, color := some "#ffffff",
    texture := Option.none, wallDepth := 8, hideBorder := false,
    doorHeight := Option.none, side := true }

/-- A concrete one-cell room state with `hideFloor` set, used as a witness
input for the rebuild claims. -/
def sampleHiddenFloorRoom : RoomState :=
  { wallOffsets := (1, 1), positionOffsets := (1, 1), maskOffsets := (0, 0),
    tileMapBounds := { minX := 0, minY := 0, maxX := 64, maxY := 32 },
    parsedTileMap := [[ParsedTileType.wall WallKind.rowWall 0 false,
                       ParsedTileType.hidden],
                      [ParsedTileType.door 0, ParsedTileType.tile 0]],
    largestDiff := 0, hideWalls := false, hideFloor := true,
    wallDepth := 8, wallHeight := 115, tileHeight := 8,
    tileColor := "#989865", wallColor := Option.none, floorColor := Option.none,
    wallTexture := Option.none, floorTexture := Option.none,
    currentWallTexture := Option.none, currentFloorTexture := Option.none,
    walls := [], floor := [], cursors := [], doorWall := Option.none,
    nextId := 0, parseCount := 1 }

/- ===================== Theorems ===================== -/

/-- C6: for every RoomObject that has been attached (a context is stored and
the destroyed flag is clear), the first `destroy` succeeds without error,
removes the object from its container exactly once and invokes the
`destroyed()` hook exactly once, and a second `destroy` is a no-op returning
the identical state with no error. -/
theorem roomObject_destroy_idempotent (s : RoomObjectState) (c : Nat)
    (hctx : s.context = some c) (hd : s.isDestroyed = false) :
    (RoomObject.destroy s).error = none ∧
    RoomObject.destroy (RoomObject.destroy s).state =
      { state := (RoomObject.destroy s).state, error := none } ∧
    (RoomObject.destroy s).state.removedCount = s.removedCount + 1 ∧
    (RoomObject.destroy s).state.destroyedCount = s.destroyedCount + 1 := by
  simp [RoomObject.destroy, hctx, hd]

/-- C6 witness: destroying a freshly attached object twice. -/
theorem roomObject_destroy_idempotent_witness :
    (RoomObject.destroy (RoomObject.setParent RoomObject.initial 7).state).error = none ∧
    RoomObject.destroy
        (RoomObject.destroy (RoomObject.setParent RoomObject.initial 7).state).state =
      { state := (RoomObject.destroy
          (RoomObject.setParent RoomObject.initial 7).state).state, error := none } ∧
    (RoomObject.destroy
        (RoomObject.setParent RoomObject.initial 7).state).state.removedCount =
      (RoomObject.setParent RoomObject.initial 7).state.removedCount + 1 ∧
    (RoomObject.destroy
        (RoomObject.setParent RoomObject.initial 7).state).state.destroyedCount =
      (RoomObject.setParent RoomObject.initial 7).state.destroyedCount + 1 :=
  roomObject_destroy_idempotent (RoomObject.setParent RoomObject.initial 7).state 7
    rfl rfl

/-- C8: `setParent` on an object that already holds a context fails
immediately with the double-attach error and leaves the state unchanged;
`setParent` on an unattached object succeeds, stores the context, clears the
destroyed flag and invokes the `registered()` hook exactly once. -/
theorem roomObject_setParent_attach_once (s : RoomObjectState) (c cNew : Nat) :
    (s.context = some c →
      RoomObject.setParent s cNew =
        { state := s, error := some "RoomObject already provided with a context." }) ∧
    (s.context = none →
      RoomObject.setParent s cNew =
        { state := { s with isDestroyed := false, context := some cNew,
                            registeredCount := s.registeredCount + 1 },
          error := none }) := by
  constructor
  · intro h
    simp [RoomObject.setParent, h]
  · intro h
    simp [RoomObject.setParent, h]

/-- C8 witness: attaching a fresh object succeeds and registers once;
attaching it again fails with the double-attach error. -/
theorem roomObject_setParent_attach_once_witness :
    (RoomObject.setParent RoomObject.initial 1 =
      { state := { RoomObject.initial with isDestroyed := false, context := some 1, registeredCount := RoomObject.initial.registeredCount + 1 }, error := none }) ∧
    (RoomObject.setParent (RoomObject.setParent RoomObject.initial 1).state 2 =
      { state := (RoomObject.setParent RoomObject.initial 1).state,
        error := some "RoomObject already provided with a context." }) :=
  ⟨(roomObject_setParent_attach_once RoomObject.initial 0 1).2 rfl,
   (roomObject_setParent_attach_once
      (RoomObject.setParent RoomObject.initial 1).state 1 2).1 rfl⟩

/-- C10: `destroy` clears the stored context and `setParent` fails exactly
when a context is present, so on an unattached object the sequence
setParent(c1); destroy(); setParent(c2) runs with no error at any step, ends
with the destroyed flag reset and the new context stored, and invokes the
`registered()` hook once per attach (twice in total). -/
theorem roomObject_reattach_after_destroy (s : RoomObjectState) (c1 c2 : Nat)
    (h : s.context = none) :
    (RoomObject.setParent s c1).error = none ∧
    (RoomObject.destroy (RoomObject.setParent s c1).state).error = none ∧
    (RoomObject.setParent
        (RoomObject.destroy (RoomObject.setParent s c1).state).state c2).error = none ∧
    (RoomObject.setParent
        (RoomObject.destroy (RoomObject.setParent s c1).state).state c2).state.isDestroyed
      = false ∧
    (RoomObject.setParent
        (RoomObject.destroy (RoomObject.setParent s c1).state).state c2).state.context
      = some c2 ∧
    (RoomObject.setParent
        (RoomObject.destroy (RoomObject.setParent s c1).state).state c2).state.registeredCount
      = s.registeredCount + 2 := by
  simp [RoomObject.setParent, RoomObject.destroy, h]

/-- C10 witness: the attach–destroy–reattach sequence on a fresh object. -/
theorem roomObject_reattach_after_destroy_witness :
    (RoomObject.setParent RoomObject.initial 3).error = none ∧
    (RoomObject.destroy (RoomObject.setParent RoomObject.initial 3).state).error = none ∧
    (RoomObject.setParent
        (RoomObject.destroy
          (RoomObject.setParent RoomObject.initial 3).state).state 4).error = none ∧
    (RoomObject.setParent
        (RoomObject.destroy
          (RoomObject.setParent RoomObject.initial 3).state).state 4).state.isDestroyed
      = false ∧
    (RoomObject.setParent
        (RoomObject.destroy
          (RoomObject.setParent RoomObject.initial 3).state).state 4).state.context
      = some 4 ∧
    (RoomObject.setParent
        (RoomObject.destroy
          (RoomObject.setParent RoomObject.initial 3).state).state 4).state.registeredCount
      = RoomObject.initial.registeredCount + 2 :=
  roomObject_reattach_after_destroy RoomObject.initial 3 4 rfl

/-- C2: for every input (roomX, roomY, roomZ, placementKind) and every room
state, `Room.getPosition` computes exactly the projection the claim states:
the placement kind selects the offset pair added to (roomX, roomY)
(wallOffsets for plane, positionOffsets for object, nothing for none), and
with base = 32 the result is screenX = -bounds.minX + x*base - y*base and
screenY = -bounds.minY + x*(base/2) + y*(base/2) - roomZ*32. -/
theorem getPosition_matches_spec (r : RoomState) (roomX roomY roomZ : Int)
    (kind : PositionKind) :
    Room.getPosition r roomX roomY roomZ kind =
      Room.getPositionSpec r roomX roomY roomZ kind := by
  cases kind <;> rfl

/-- C5: for every DrawPart and frame index, the asset selected for display is
`assets[f mod assets.length]`, and selection is periodic with period
`assets.length`: the asset shown at frame f equals the asset shown at
frame f + assets.length. -/
theorem drawPart_frame_cycling (part : AvatarDrawPart) (f : Nat) :
    BaseAvatar.selectedAsset part f = part.assets.get? (f % part.assets.length) ∧
    BaseAvatar.selectedAsset part f =
      BaseAvatar.selectedAsset part (f + part.assets.length) := by
  refine ⟨rfl, ?_⟩
  unfold BaseAvatar.selectedAsset
  rw [Nat.add_mod_right]

/-- C1: two reload requests issued before either resolves — the avatar is
constructed with look l1 and mounted (issuing request id 1), then assigned
look l2 and ticked (issuing request id 2).  The latest issued id is 2; the
response to request 1 is discarded with no observable effect on any state,
and in both arrival orders the final state equals the state in which only the
response matching the latest issued id was applied; that application stores
the loader result, the look, the draw definition and the rebuilt sprite
graph of the latest request. -/
theorem reload_staleness_last_request_wins (l1 l2 : LookOptions) (r1 r2 : Nat) :
    (BaseAvatar.tick (BaseAvatar.setLookOptions
        (BaseAvatar.setDependencies (BaseAvatar.mkAvatar l1)) l2)).updateId = 2 ∧
    (BaseAvatar.tick (BaseAvatar.setLookOptions
        (BaseAvatar.setDependencies (BaseAvatar.mkAvatar l1)) l2)).requestLog =
      [(1, l1), (2, l2)] ∧
    BaseAvatar.handleResponse (BaseAvatar.tick (BaseAvatar.setLookOptions
        (BaseAvatar.setDependencies (BaseAvatar.mkAvatar l1)) l2)) 1 l1 r1 =
      BaseAvatar.tick (BaseAvatar.setLookOptions
        (BaseAvatar.setDependencies (BaseAvatar.mkAvatar l1)) l2) ∧
    BaseAvatar.handleResponse (BaseAvatar.handleResponse
        (BaseAvatar.tick (BaseAvatar.setLookOptions
          (BaseAvatar.setDependencies (BaseAvatar.mkAvatar l1)) l2)) 1 l1 r1) 2 l2 r2 =
      BaseAvatar.handleResponse (BaseAvatar.tick (BaseAvatar.setLookOptions
        (BaseAvatar.setDependencies (BaseAvatar.mkAvatar l1)) l2)) 2 l2 r2 ∧
    BaseAvatar.handleResponse (BaseAvatar.handleResponse
        (BaseAvatar.tick (BaseAvatar.setLookOptions
          (BaseAvatar.setDependencies (BaseAvatar.mkAvatar l1)) l2)) 2 l2 r2) 1 l1 r1 =
      BaseAvatar.handleResponse (BaseAvatar.tick (BaseAvatar.setLookOptions
        (BaseAvatar.setDependencies (BaseAvatar.mkAvatar l1)) l2)) 2 l2 r2 ∧
    (BaseAvatar.handleResponse (BaseAvatar.tick (BaseAvatar.setLookOptions
        (BaseAvatar.setDependencies (BaseAvatar.mkAvatar l1)) l2)) 2 l2 r2).avatarLoaderResult
      = some r2 ∧
    (BaseAvatar.handleResponse (BaseAvatar.tick (BaseAvatar.setLookOptions
        (BaseAvatar.setDependencies (BaseAvatar.mkAvatar l1)) l2)) 2 l2 r2).lookOptions
      = some l2 ∧
    (BaseAvatar.handleResponse (BaseAvatar.tick (BaseAvatar.setLookOptions
        (BaseAvatar.setDependencies (BaseAvatar.mkAvatar l1)) l2)) 2 l2 r2).avatarDrawDefinition
      = some (r2, l2) ∧
    (BaseAvatar.handleResponse (BaseAvatar.tick (BaseAvatar.setLookOptions
        (BaseAvatar.setDependencies (BaseAvatar.mkAvatar l1)) l2)) 2 l2 r2).spriteGraph
      = some (r2, l2, 0) :=
  ⟨rfl, rfl, rfl, rfl, rfl, rfl, rfl, rfl, rfl⟩

/-- C4: for an avatar in steady state with a previously applied look (mounted,
no pending look, both dirty flags clear), assigning a look whose action set is
set-equal to the old one and whose look id, item, effect and direction are
equal changes nothing — no reload cycle is ever triggered (the setter is the
identity and ticking the unchanged state stays put); assigning a look that
differs in any of those respects marks the look dirty and triggers exactly one
reload cycle: the next tick issues exactly one resolution request and the tick
after that is the identity. -/
theorem lookOptions_reload_iff_changed (s : AvatarState) (old new : LookOptions)
    (hmount : s.mounted = true)
    (hlook : s.lookOptions = some old)
    (hnext : s.nextLookOptions = none)
    (hrl : s.refreshLook = false)
    (hrf : s.refreshFrame = false) :
    ((isSetEqual old.actions new.actions = true ∧ old.look = new.look ∧
        old.item = new.item ∧ old.effect = new.effect ∧
        old.direction = new.direction) →
      BaseAvatar.setLookOptions s new = s ∧ BaseAvatar.tick s = s) ∧
    ((isSetEqual old.actions new.actions = false ∨ old.look ≠ new.look ∨
        old.item ≠ new.item ∨ old.effect ≠ new.effect ∨
        old.direction ≠ new.direction) →
      (BaseAvatar.setLookOptions s new).refreshLook = true ∧
      (BaseAvatar.tick (BaseAvatar.setLookOptions s new)).requestLog =
        s.requestLog ++ [(s.updateId + 1, new)] ∧
      BaseAvatar.tick (BaseAvatar.tick (BaseAvatar.setLookOptions s new)) =
        BaseAvatar.tick (BaseAvatar.setLookOptions s new)) := by
  constructor
  · rintro ⟨h1, h2, h3, h4, h5⟩
    constructor
    · simp [BaseAvatar.setLookOptions, BaseAvatar.updateLookOptions, hlook,
        h1, h2, h3, h4, h5]
    · simp [BaseAvatar.tick, hrl, hrf]
  · intro h
    have htrig :
        (!(isSetEqual old.actions new.actions) ||
          old.look != new.look || old.item != new.item ||
          old.effect != new.effect || old.direction != new.direction) = true := by
      rcases h with h | h | h | h | h <;>
        simp [h, bne_iff_ne, Bool.or_eq_true, Bool.not_eq_true']
    have hset : BaseAvatar.setLookOptions s new =
        { s with nextLookOptions := some new, refreshLook := true } := by
      simp [BaseAvatar.setLookOptions, BaseAvatar.updateLookOptions, hlook, htrig]
    refine ⟨by rw [hset], ?_, ?_⟩
    · rw [hset]
      simp [BaseAvatar.tick, BaseAvatar.reloadLook, hmount, hrf]
    · rw [hset]
      simp [BaseAvatar.tick, BaseAvatar.reloadLook, hmount, hrf]

/-- C4 witness: in a concrete steady state, reassigning the same look with its
two actions in the opposite order triggers no reload, and assigning a look
differing only in direction marks the look dirty, issues exactly one request
on the next tick, and the tick after that is the identity. -/
theorem lookOptions_reload_iff_changed_witness :
    (BaseAvatar.setLookOptions (BaseAvatar.steadyAvatar lookA) lookAshuffled =
        BaseAvatar.steadyAvatar lookA ∧
      BaseAvatar.tick (BaseAvatar.steadyAvatar lookA) =
        BaseAvatar.steadyAvatar lookA) ∧
    ((BaseAvatar.setLookOptions (BaseAvatar.steadyAvatar lookA) lookB).refreshLook
        = true ∧
      (BaseAvatar.tick (BaseAvatar.setLookOptions
          (BaseAvatar.steadyAvatar lookA) lookB)).requestLog =
        (BaseAvatar.steadyAvatar lookA).requestLog ++
          [((BaseAvatar.steadyAvatar lookA).updateId + 1, lookB)] ∧
      BaseAvatar.tick (BaseAvatar.tick (BaseAvatar.setLookOptions
          (BaseAvatar.steadyAvatar lookA) lookB)) =
        BaseAvatar.tick (BaseAvatar.setLookOptions
          (BaseAvatar.steadyAvatar lookA) lookB)) :=
  ⟨(lookOptions_reload_iff_changed (BaseAvatar.steadyAvatar lookA) lookA lookAshuffled
      rfl rfl rfl rfl rfl).1 (by refine ⟨by decide, rfl, rfl, rfl, rfl⟩),
   (lookOptions_reload_iff_changed (BaseAvatar.steadyAvatar lookA) lookA lookB
      rfl rfl rfl rfl rfl).2 (Or.inr (Or.inr (Or.inr (Or.inr (by decide)))))⟩

/-- C7: setting the wallHeight of the room walks the existing wall objects and sets
the height of each one in place (to the compensated wallHeightWithZ value computed
from the new height): the wall list is exactly the old list with only the
height field replaced, so the count and identities of the active walls are
unchanged, the floor and cursor lists are untouched, the parsed tile map is
unmodified, and tile-map parsing is not re-invoked. -/
theorem wallHeight_setter_in_place (r : RoomState) (value : Int) :
    (Room.setWallHeight r value).walls =
      r.walls.map (fun (w : WallObj) => { w with wallHeight := value + r.largestDiff * 32 }) ∧
    (Room.setWallHeight r value).walls.length = r.walls.length ∧
    (Room.setWallHeight r value).walls.map (fun w => w.id) =
      r.walls.map (fun w => w.id) ∧
    (Room.setWallHeight r value).wallHeight = value ∧
    (Room.setWallHeight r value).floor = r.floor ∧
    (Room.setWallHeight r value).cursors = r.cursors ∧
    (Room.setWallHeight r value).parsedTileMap = r.parsedTileMap ∧
    (Room.setWallHeight r value).parseCount = r.parseCount := by
  refine ⟨?_, ?_, ?_, rfl, rfl, rfl, rfl, rfl⟩
  · simp [Room.setWallHeight, Room.wallHeightWithZ]
  · simp [Room.setWallHeight]
  · simp [Room.setWallHeight, List.map_map]

/- Helper lemmas: fields preserved by the register functions and the cell
processing of the full rebuild. -/

theorem foldlPreserve {α β : Type _} (I : α → Prop) (f : α → β → α)
    (hf : ∀ a b, I a → I (f a b)) :
    ∀ (l : List β) (a : α), I a → I (l.foldl f a) := by
  intro l
  induction l with
  | nil => intro a ha; exact ha
  | cons x xs ih => intro a ha; exact ih (f a x) (hf a x ha)

@[simp] theorem registerWall_wallOffsets (r : RoomState) (w : WallObj) :
    (Room.registerWall r w).wallOffsets = r.wallOffsets := by
  unfold Room.registerWall; split <;> rfl

@[simp] theorem registerWall_positionOffsets (r : RoomState) (w : WallObj) :
    (Room.registerWall r w).positionOffsets = r.positionOffsets := by
  unfold Room.registerWall; split <;> rfl

@[simp] theorem registerWall_tileMapBounds (r : RoomState) (w : WallObj) :
    (Room.registerWall r w).tileMapBounds = r.tileMapBounds := by
  unfold Room.registerWall; split <;> rfl

@[simp] theorem registerWall_hideWalls (r : RoomState) (w : WallObj) :
    (Room.registerWall r w).hideWalls = r.hideWalls := by
  unfold Room.registerWall; split <;> rfl

@[simp] theorem registerWall_hideFloor (r : RoomState) (w : WallObj) :
    (Room.registerWall r w).hideFloor = r.hideFloor := by
  unfold Room.registerWall; split <;> rfl

@[simp] theorem registerWall_floor (r : RoomState) (w : WallObj) :
    (Room.registerWall r w).floor = r.floor := by
  unfold Room.registerWall; split <;> rfl

theorem registerWall_skipped (r : RoomState) (w : WallObj)
    (h : (r.hideWalls || r.hideFloor) = true) : Room.registerWall r w = r := by
  unfold Room.registerWall
  simp [h]

@[simp] theorem registerTile_wallOffsets (r : RoomState) (t : FloorObj) :
    (Room.registerTile r t).wallOffsets = r.wallOffsets := by
  unfold Room.registerTile; split <;> rfl

@[simp] theorem registerTile_positionOffsets (r : RoomState) (t : FloorObj) :
    (Room.registerTile r t).positionOffsets = r.positionOffsets := by
  unfold Room.registerTile; split <;> rfl

@[simp] theorem registerTile_tileMapBounds (r : RoomState) (t : FloorObj) :
    (Room.registerTile r t).tileMapBounds = r.tileMapBounds := by
  unfold Room.registerTile; split <;> rfl

@[simp] theorem registerTile_hideWalls (r : RoomState) (t : FloorObj) :
    (Room.registerTile r t).hideWalls = r.hideWalls := by
  unfold Room.registerTile; split <;> rfl

@[simp] theorem registerTile_hideFloor (r : RoomState) (t : FloorObj) :
    (Room.registerTile r t).hideFloor = r.hideFloor := by
  unfold Room.registerTile; split <;> rfl

@[simp] theorem registerTile_walls (r : RoomState) (t : FloorObj) :
    (Room.registerTile r t).walls = r.walls := by
  unfold Room.registerTile; split <;> rfl

theorem registerTile_skipped (r : RoomState) (t : FloorObj)
    (h : r.hideFloor = true) : Room.registerTile r t = r := by
  unfold Room.registerTile
  simp [h]

@[simp] theorem registerTileCursor_wallOffsets (r : RoomState)
    (roomX roomY roomZ : Int) (door : Bool) :
    (Room.registerTileCursor r roomX roomY roomZ door).wallOffsets = r.wallOffsets := rfl

@[simp] theorem registerTileCursor_positionOffsets (r : RoomState)
    (roomX roomY roomZ : Int) (door : Bool) :
    (Room.registerTileCursor r roomX roomY roomZ door).positionOffsets =
      r.positionOffsets := rfl

@[simp] theorem registerTileCursor_tileMapBounds (r : RoomState)
    (roomX roomY roomZ : Int) (door : Bool) :
    (Room.registerTileCursor r roomX roomY roomZ door).tileMapBounds =
      r.tileMapBounds := rfl

@[simp] theorem registerTileCursor_hideWalls (r : RoomState)
    (roomX roomY roomZ : Int) (door : Bool) :
    (Room.registerTileCursor r roomX roomY roomZ door).hideWalls = r.hideWalls := rfl

@[simp] theorem registerTileCursor_hideFloor (r : RoomState)
    (roomX roomY roomZ : Int) (door : Bool) :
    (Room.registerTileCursor r roomX roomY roomZ door).hideFloor = r.hideFloor := rfl

@[simp] theorem registerTileCursor_walls (r : RoomState)
    (roomX roomY roomZ : Int) (door : Bool) :
    (Room.registerTileCursor r roomX roomY roomZ door).walls = r.walls := rfl

@[simp] theorem registerTileCursor_floor (r : RoomState)
    (roomX roomY roomZ : Int) (door : Bool) :
    (Room.registerTileCursor r roomX roomY roomZ door).floor = r.floor := rfl

theorem processCell_proj (r : RoomState) (x y : Nat) (t : ParsedTileType) :
    (Room.processCell r x y t).wallOffsets = r.wallOffsets ∧
    (Room.processCell r x y t).positionOffsets = r.positionOffsets ∧
    (Room.processCell r x y t).tileMapBounds = r.tileMapBounds ∧
    (Room.processCell r x y t).hideWalls = r.hideWalls ∧
    (Room.processCell r x y t).hideFloor = r.hideFloor := by
  cases t with
  | tile z => simp [Room.processCell, RoomState.fresh]
  | door z => simp [Room.processCell, RoomState.fresh]
  | wall kind height hb =>
    cases kind <;> simp [Room.processCell, RoomState.fresh, getWallDirection]
  | stairs z kind => simp [Room.processCell, RoomState.fresh]
  | hidden => simp [Room.processCell]

theorem updateTiles_proj (r : RoomState) :
    (Room.updateTiles r).wallOffsets = r.wallOffsets ∧
    (Room.updateTiles r).positionOffsets = r.positionOffsets ∧
    (Room.updateTiles r).tileMapBounds = r.tileMapBounds ∧
    (Room.updateTiles r).hideWalls = r.hideWalls ∧
    (Room.updateTiles r).hideFloor = r.hideFloor := by
  have hstep : ∀ (a : RoomState) (x y : Nat) (t : ParsedTileType),
      (a.wallOffsets = r.wallOffsets ∧ a.positionOffsets = r.positionOffsets ∧
        a.tileMapBounds = r.tileMapBounds ∧ a.hideWalls = r.hideWalls ∧
        a.hideFloor = r.hideFloor) →
      ((Room.processCell a x y t).wallOffsets = r.wallOffsets ∧
        (Room.processCell a x y t).positionOffsets = r.positionOffsets ∧
        (Room.processCell a x y t).tileMapBounds = r.tileMapBounds ∧
        (Room.processCell a x y t).hideWalls = r.hideWalls ∧
        (Room.processCell a x y t).hideFloor = r.hideFloor) := by
    intro a x y t h
    obtain ⟨h1, h2, h3, h4, h5⟩ := h
    obtain ⟨g1, g2, g3, g4, g5⟩ := processCell_proj a x y t
    exact ⟨g1.trans h1, g2.trans h2, g3.trans h3, g4.trans h4, g5.trans h5⟩
  unfold Room.updateTiles
  exact foldlPreserve
    (fun a => a.wallOffsets = r.wallOffsets ∧ a.positionOffsets = r.positionOffsets ∧
      a.tileMapBounds = r.tileMapBounds ∧ a.hideWalls = r.hideWalls ∧
      a.hideFloor = r.hideFloor)
    _
    (fun a row ha =>
      foldlPreserve _ _
        (fun a2 cell ha2 => hstep a2 cell.1 row.1 cell.2 ha2) row.2.enum a ha)
    ((Room.resetTiles r).parsedTileMap.enum) (Room.resetTiles r)
    ⟨rfl, rfl, rfl, rfl, rfl⟩

theorem getPosition_congr (a b : RoomState)
    (h1 : a.wallOffsets = b.wallOffsets)
    (h2 : a.positionOffsets = b.positionOffsets)
    (h3 : a.tileMapBounds = b.tileMapBounds)
    (roomX roomY roomZ : Int) (k : PositionKind) :
    Room.getPosition a roomX roomY roomZ k = Room.getPosition b roomX roomY roomZ k := by
  cases k <;> simp [Room.getPosition, h1, h2, h3]

theorem applyStyle_proj (r : RoomState) (m : StyleMutation) :
    (Room.applyStyle r m).wallOffsets = r.wallOffsets ∧
    (Room.applyStyle r m).positionOffsets = r.positionOffsets ∧
    (Room.applyStyle r m).tileMapBounds = r.tileMapBounds := by
  cases m with
  | wallHeight v => exact ⟨rfl, rfl, rfl⟩
  | tileHeight v => exact ⟨rfl, rfl, rfl⟩
  | wallDepth v => exact ⟨rfl, rfl, rfl⟩
  | wallColor v => exact ⟨rfl, rfl, rfl⟩
  | floorColor v => exact ⟨rfl, rfl, rfl⟩
  | wallTexture v => exact ⟨rfl, rfl, rfl⟩
  | floorTexture v => exact ⟨rfl, rfl, rfl⟩
  | hideWalls v =>
    obtain ⟨h1, h2, h3, _, _⟩ := updateTiles_proj { r with hideWalls := v }
    exact ⟨h1, h2, h3⟩
  | hideFloor v =>
    obtain ⟨h1, h2, h3, _, _⟩ := updateTiles_proj { r with hideFloor := v }
    exact ⟨h1, h2, h3⟩

/-- C3: `getPosition` is a pure function of its arguments and the bounds and
offsets computed at construction: after any sequence of style-parameter
mutations (wallHeight, tileHeight, wallDepth, wallColor, floorColor,
wallTexture, floorTexture, hideWalls, hideFloor) the projection of every
(roomX, roomY, roomZ, kind) tuple is identical to its value before the
mutations — no style setter recomputes the tile-map bounds or offsets. -/
theorem project_pure_across_style_mutations (r : RoomState)
    (ms : List StyleMutation) (roomX roomY roomZ : Int) (k : PositionKind) :
    Room.getPosition (ms.foldl Room.applyStyle r) roomX roomY roomZ k =
      Room.getPosition r roomX roomY roomZ k := by
  induction ms generalizing r with
  | nil => rfl
  | cons m rest ih =>
    have h := applyStyle_proj r m
    calc Room.getPosition ((m :: rest).foldl Room.applyStyle r) roomX roomY roomZ k
        = Room.getPosition (rest.foldl Room.applyStyle (Room.applyStyle r m))
            roomX roomY roomZ k := rfl
      _ = Room.getPosition (Room.applyStyle r m) roomX roomY roomZ k :=
            ih (Room.applyStyle r m)
      _ = Room.getPosition r roomX roomY roomZ k :=
            getPosition_congr _ _ h.1 h.2.1 h.2.2 roomX roomY roomZ k

theorem processCell_hideFloor (a : RoomState) (x y : Nat) (t : ParsedTileType)
    (h : a.hideFloor = true) :
    (Room.processCell a x y t).walls = a.walls ∧
    (Room.processCell a x y t).floor = a.floor := by
  cases t with
  | tile z =>
    simp [Room.processCell, RoomState.fresh, Room.registerTile, h]
  | door z =>
    simp [Room.processCell, RoomState.fresh, Room.registerTile, Room.registerWall, h]
  | wall kind height hb =>
    cases kind <;>
      simp [Room.processCell, RoomState.fresh, Room.registerWall, getWallDirection, h]
  | stairs z kind =>
    simp [Room.processCell, RoomState.fresh, Room.registerTile, h]
  | hidden => exact ⟨rfl, rfl⟩

/-- C9: wall registration is skipped whenever hideWalls OR hideFloor holds, so
a full rebuild of a room whose hideFloor flag is set registers no wall objects
at all (even with hideWalls clear): after `updateTiles` both the active wall
list and the active floor list are empty. -/
theorem hideFloor_suppresses_walls (r : RoomState) :
    (r.hideFloor = true →
      (Room.updateTiles r).walls = [] ∧ (Room.updateTiles r).floor = []) ∧
    (∀ w : WallObj, (r.hideWalls || r.hideFloor) = true →
      Room.registerWall r w = r) := by
  constructor
  · intro h
    have hstep : ∀ (a : RoomState) (x y : Nat) (t : ParsedTileType),
        (a.walls = [] ∧ a.floor = [] ∧ a.hideFloor = true) →
        ((Room.processCell a x y t).walls = [] ∧
          (Room.processCell a x y t).floor = [] ∧
          (Room.processCell a x y t).hideFloor = true) := by
      intro a x y t ha
      obtain ⟨h1, h2, h3⟩ := ha
      obtain ⟨g1, g2⟩ := processCell_hideFloor a x y t h3
      have g3 := (processCell_proj a x y t).2.2.2.2
      exact ⟨g1.trans h1, g2.trans h2, g3.trans h3⟩
    have final :
        ((Room.updateTiles r).walls = [] ∧ (Room.updateTiles r).floor = [] ∧
          (Room.updateTiles r).hideFloor = true) := by
      unfold Room.updateTiles
      exact foldlPreserve
        (fun a => a.walls = [] ∧ a.floor = [] ∧ a.hideFloor = true)
        _
        (fun a row ha =>
          foldlPreserve _ _
            (fun a2 cell ha2 => hstep a2 cell.1 row.1 cell.2 ha2) row.2.enum a ha)
        ((Room.resetTiles r).parsedTileMap.enum) (Room.resetTiles r)
        ⟨rfl, rfl, h⟩
    exact ⟨final.1, final.2.1⟩
  · intro w h
    exact registerWall_skipped r w h

/-- C9 witness: rebuilding the concrete hidden-floor sample room (which
contains a wall, a door and a floor tile, with hideWalls clear) yields empty
wall and floor lists, and registering a wall on it is skipped. -/
theorem hideFloor_suppresses_walls_witness :
    ((Room.updateTiles sampleHiddenFloorRoom).walls = [] ∧
      (Room.updateTiles sampleHiddenFloorRoom).floor = []) ∧
    Room.registerWall sampleHiddenFloorRoom sampleWall = sampleHiddenFloorRoom :=
  ⟨(hideFloor_suppresses_walls sampleHiddenFloorRoom).1 rfl,
   (hideFloor_suppresses_walls sampleHiddenFloorRoom).2 sampleWall rfl⟩
